import Mathlib

/-!
Verification development for the you_hoard media archiving service.

The definitions below are shallow embeddings of the Python source:

* app/core/metadata.py   — classify_video_type
* app/core/scheduler.py  — SubscriptionScheduler._check_subscription and
                           _schedule_subscription (cron firing)
* app/core/downloader.py — Downloader.queue_download, _process_job,
                           _process_subscription_discovery_job
* app/core/ytdlp_service.py — YTDLPService._is_permanent_error and
                           _run_with_retries
* app/core/config.py     — the backoff/retry settings
* app/core/recovery.py   — RecoveryManager.scan_and_recover and its upserts
* app/api/endpoints/videos.py — queue_video_download and the bulk download
                           operation

Machine integers of the source are modelled as Int/Nat; Python float
arithmetic on the exact binary values 2.0 and 600.0 and on integer
quotients is modelled with exact rational arithmetic; fallible code
returns Except.
-/

/-- VideoType enumeration from app/core/metadata.py (Literal of the strings
video, short, live). -/
inductive VideoType where
  | video
  | short
  | live
deriving DecidableEq, Repr

/-- Entry models one yt-dlp metadata dictionary as far as classification and
discovery read it: the fields id, is_live, live_status, width, height,
duration accessed via dict.get with default 0 (absent or None numeric fields
are 0, which has the same truthiness in the source). -/
structure Entry where
  id : Option String
  is_live : Bool
  live_status : String
  width : Int
  height : Int
  duration : Int
deriving DecidableEq, Repr

/-- Embedding of classify_video_type (app/core/metadata.py lines 30-64).
The source checks: is_live truthy; live_status in (is_live, is_upcoming);
then if height > 0 and width > 0 computes aspect = width / height (float
division, modelled exactly over the rationals) and returns short when
aspect < 1.0; then the secondary duration check, whose Python conjunction
`duration and duration <= 60 and width and height and width < height`
requires duration, width and height to be truthy (nonzero); else video. -/
def classify_video_type (e : Entry) : VideoType :=
  if e.is_live then .live
  else if e.live_status = "is_live" ∨ e.live_status = "is_upcoming" then .live
  else if e.height > 0 ∧ e.width > 0 ∧ (e.width : ℚ) / (e.height : ℚ) < 1 then .short
  else if e.duration ≠ 0 ∧ e.duration ≤ 60 ∧ e.width ≠ 0 ∧ e.height ≠ 0 ∧
          e.width < e.height then .short
  else .video

/-- Modelled from the spec: the reference classification of spec section 4.3
("Content-type classification"): live when is_live or live_status in
{is_live, is_upcoming}; else short when width>0, height>0 and
width/height < 1.0; else short when duration ≤ 60 seconds AND
width < height (stated as the secondary signal when the aspect-ratio
fields are absent or zero, absent fields reading as 0); else video. -/
def classifyVideoTypeRef (e : Entry) : VideoType :=
  if e.is_live ∨ e.live_status = "is_live" ∨ e.live_status = "is_upcoming" then .live
  else if e.width > 0 ∧ e.height > 0 ∧ (e.width : ℚ) / (e.height : ℚ) < 1 then .short
  else if e.duration ≤ 60 ∧ e.width < e.height then .short
  else .video

/-- Amended reference classification: as classifyVideoTypeRef, except that
the secondary short-signal additionally requires duration, width and height
to be nonzero (so it can never fire when an aspect-ratio field is absent or
zero, matching the truthiness guards in the source). -/
def classifyVideoTypeRefAmended (e : Entry) : VideoType :=
  if e.is_live ∨ e.live_status = "is_live" ∨ e.live_status = "is_upcoming" then .live
  else if e.width > 0 ∧ e.height > 0 ∧ (e.width : ℚ) / (e.height : ℚ) < 1 then .short
  else if e.duration ≠ 0 ∧ e.duration ≤ 60 ∧ e.width ≠ 0 ∧ e.height ≠ 0 ∧
          e.width < e.height then .short
  else .video

/-- Example entry of claim C6: not live, portrait 480x854, 30 seconds. -/
def entryPortrait : Entry := ⟨some "a", false, "", 480, 854, 30⟩

/-- Example entry of claim C6: live flag set, landscape 1920x1080. -/
def entryLive : Entry := ⟨some "b", true, "", 1920, 1080, 0⟩

/-- Example entry of claim C6: landscape 1920x1080, 600 seconds. -/
def entryLandscape : Entry := ⟨some "c", false, "", 1920, 1080, 600⟩

/-- Entry with a zero (absent) width, portrait-indicating height, duration
30: the spec reference classifies it short via its secondary signal, the
code classifies it video because the secondary signal requires a nonzero
width. -/
def entryZeroWidth : Entry := ⟨some "d", false, "", 0, 854, 30⟩

/-- C6 counterexample: classify_video_type does not equal the reference
definition of the spec; at the entry with width 0, height 854, duration 30
the code yields video while the reference yields short. -/
theorem c6_counterexample :
    classify_video_type entryZeroWidth = VideoType.video ∧
    classifyVideoTypeRef entryZeroWidth = VideoType.short ∧
    classify_video_type entryZeroWidth ≠ classifyVideoTypeRef entryZeroWidth := by
  decide

/-- C6 (amended): classify_video_type agrees everywhere with the reference
definition amended so that the secondary short-signal additionally requires
duration, width and height nonzero; and the three concrete examples of the
claim classify as stated (portrait 480x854/30s → short, is_live → live,
landscape 1920x1080/600s → video). -/
theorem c6_classification_amended :
    (∀ e : Entry, classify_video_type e = classifyVideoTypeRefAmended e) ∧
    classify_video_type entryPortrait = VideoType.short ∧
    classify_video_type entryLive = VideoType.live ∧
    classify_video_type entryLandscape = VideoType.video := by
  refine ⟨fun e => ?_, ?_, ?_, ?_⟩
  · unfold classify_video_type classifyVideoTypeRefAmended
    split_ifs <;> tauto
  · norm_num [classify_video_type, entryPortrait]
    decide
  · decide
  · norm_num [classify_video_type, entryLandscape]
    decide

/-- Decides whether the segment occurs at the head of the haystack
(character-list form of a literal pattern segment). -/
def headMatches : List Char → List Char → Bool
  | _, [] => true
  | [], _ :: _ => false
  | h :: hs, p :: ps => h = p && headMatches hs ps

/-- Finds the first occurrence of the literal segment in the haystack and
returns the remaining haystack after that occurrence; none when the segment
does not occur. -/
def searchSegRest : List Char → List Char → Option (List Char)
  | [], seg => if headMatches [] seg then some [] else none
  | h :: t, seg =>
    if headMatches (h :: t) seg then some ((h :: t).drop seg.length)
    else searchSegRest t seg

/-- Semantics of Python re.search for the permanent-error patterns, which
consist only of literal text joined by the wildcard .* : the literal
segments must occur in order, each strictly after the end of the previous
one (earliest-first matching, equivalent for existence). -/
def searchSegs : List Char → List (List Char) → Bool
  | _, [] => true
  | hay, seg :: rest =>
    match searchSegRest hay seg with
    | none => false
    | some r => searchSegs r rest

/-- True when the needle occurs as a substring of the haystack; models the
Python expression needle in str(e). -/
def substrContains (hay needle : String) : Bool :=
  (searchSegRest hay.toList needle.toList).isSome

/-- Embedding of the permanent_patterns list of _is_permanent_error
(app/core/ytdlp_service.py lines 103-142); each regex is written as its
list of literal segments, in source order, with .* as the separator. -/
def permanentPatterns : List (List String) := [
  ["youtube account", "terminated"],
  ["youtube account", "suspended"],
  ["channel", "terminated"],
  ["channel", "suspended"],
  ["video", "deleted"],
  ["video", "removed"],
  ["video", "no longer available"],
  ["video", "unavailable"],
  ["this video has been removed"],
  ["private video"],
  ["video", "private"],
  ["video", "not available in your country"],
  ["geo", "restrict"],
  ["blocked in your country"],
  ["sign in to confirm your age"],
  ["age", "restrict", "sign in"],
  ["playlist", "does not exist"],
  ["channel", "does not exist"],
  ["playlist", "not found"],
  ["channel", "not found"],
  ["copyright", "claim"],
  ["dmca", "takedown"],
  ["unsupported url"],
  ["invalid", "url"],
  ["unable to extract", "id"]]

/-- ASCII lowering of one character; models str.lower on the ASCII range,
which covers every character of the permanent patterns. -/
def lowerChar (c : Char) : Char :=
  if 65 ≤ c.toNat ∧ c.toNat ≤ 90 then Char.ofNat (c.toNat + 32) else c

/-- Embedding of YTDLPService._is_permanent_error (ytdlp_service.py lines
93-149): lowercase the error text and test it against each permanent
pattern with re.search. -/
def is_permanent_error (err : String) : Bool :=
  let s := err.toList.map lowerChar
  permanentPatterns.any (fun p => searchSegs s (p.map String.toList))

/-- Settings values from app/core/config.py relevant to the retry loop;
the float defaults 2.0 and 600.0 are exactly representable and modelled as
rationals. -/
def YTDLP_MIN_BACKOFF : ℚ := 2

/-- Maximum backoff time in seconds (config.py line 74). -/
def YTDLP_MAX_BACKOFF : ℚ := 600

/-- Maximum retries for failed operations (config.py line 80). -/
def YTDLP_MAX_RETRIES : Nat := 5

/-- Backoff computed at a given attempt before the random 403/429
multiplier (ytdlp_service.py line 190):
min(YTDLP_MIN_BACKOFF * 2 ** (attempt - 1), YTDLP_MAX_BACKOFF). -/
def backoffDelay (attempt : Nat) : ℚ :=
  min (YTDLP_MIN_BACKOFF * 2 ^ (attempt - 1)) YTDLP_MAX_BACKOFF

/-- Error text check of ytdlp_service.py line 191:
a 403 or 429 marker in str(e) selects the stronger randomized backoff. -/
def mentionsBlocking (err : String) : Bool :=
  substrContains err "403" || substrContains err "429"

/-- Observable trace of one _run_with_retries call: how many attempts ran,
the base backoffs computed (before the random multiplier), the values
actually slept, and the final result (ok, the re-raised permanent error,
or the generic failed-after-retries exception). -/
structure RetryTrace where
  attemptsMade : Nat
  baseBackoffs : List ℚ
  sleeps : List ℚ
  result : Except String Unit
deriving Repr

/-- Embedding of the body of YTDLPService._run_with_retries
(ytdlp_service.py lines 171-195), parametrized by the outcome of the
wrapped call at each attempt and by the random uniform(5, 10) draw at each
attempt. The for loop runs attempt = 1 .. max_retries; on success it
returns; on an exception it re-raises a permanent error immediately,
breaks to the final generic raise on the last attempt, and otherwise
computes backoff = min(min_backoff * 2^(attempt-1), max_backoff),
multiplies it by the random draw when the error text mentions 403/429,
and sleeps that long before the next attempt. The failure_count increment
and the rate-limit wait inside the try are not observable in the trace. -/
def runRetriesFrom (outcome : Nat → Except String Unit) (mult : Nat → ℚ)
    (maxRetries attempt attemptsMade : Nat)
    (baseBackoffs sleeps : List ℚ) : RetryTrace :=
  if attempt > maxRetries then
    ⟨attemptsMade, baseBackoffs, sleeps, .error "failed after retries"⟩
  else
    match outcome attempt with
    | .ok r => ⟨attemptsMade + 1, baseBackoffs, sleeps, .ok r⟩
    | .error e =>
      if is_permanent_error e then
        ⟨attemptsMade + 1, baseBackoffs, sleeps, .error e⟩
      else if maxRetries ≤ attempt then
        ⟨attemptsMade + 1, baseBackoffs, sleeps, .error "failed after retries"⟩
      else
        runRetriesFrom outcome mult maxRetries (attempt + 1) (attemptsMade + 1)
          (baseBackoffs ++ [backoffDelay attempt])
          (sleeps ++ [if mentionsBlocking e then backoffDelay attempt * mult attempt
                      else backoffDelay attempt])
termination_by maxRetries + 1 - attempt
decreasing_by simp_wf; omega

/-- Entry point of _run_with_retries: the loop starts at attempt 1 with an
empty trace. -/
def run_with_retries (outcome : Nat → Except String Unit) (mult : Nat → ℚ)
    (maxRetries : Nat) : RetryTrace :=
  runRetriesFrom outcome mult maxRetries 1 0 [] []

/-- C4: whenever the loop reaches an attempt whose call fails with an error
message classified permanent, _run_with_retries raises that error
immediately: exactly one more attempt is recorded, and the backoff and
sleep lists are returned unchanged (no backoff computed, nothing slept,
no further attempts). -/
theorem c4_permanent_error_short_circuit
    (outcome : Nat → Except String Unit) (mult : Nat → ℚ)
    (maxRetries attempt attemptsMade : Nat)
    (baseBackoffs sleeps : List ℚ) (e : String)
    (hatt : attempt ≤ maxRetries)
    (herr : outcome attempt = .error e)
    (hperm : is_permanent_error e = true) :
    runRetriesFrom outcome mult maxRetries attempt attemptsMade baseBackoffs sleeps =
      ⟨attemptsMade + 1, baseBackoffs, sleeps, .error e⟩ := by
  unfold runRetriesFrom
  have h1 : ¬ attempt > maxRetries := by omega
  simp [h1, herr, hperm]

/-- C4 witness: a first-attempt failure with the message containing
"This video has been removed" is permanent, and the whole run makes one
attempt, sleeps nothing, and re-raises that error. -/
theorem c4_witness :
    (1 : Nat) ≤ 5 ∧
    (fun _ : Nat => (Except.error "This video has been removed" : Except String Unit)) 1 =
      Except.error "This video has been removed" ∧
    is_permanent_error "This video has been removed" = true ∧
    runRetriesFrom (fun _ => Except.error "This video has been removed") (fun _ => 7)
      5 1 0 [] [] = ⟨1, [], [], Except.error "This video has been removed"⟩ :=
  ⟨by omega, rfl, by decide,
    c4_permanent_error_short_circuit _ _ 5 1 0 [] [] _ (by omega) rfl (by decide)⟩

/-- C5: the backoff delay runRetriesFrom records before the random 403/429
multiplier equals min(base * 2^(attempt-1), cap) with the configured base
and cap, is monotone non-decreasing from each attempt to the next, and
never exceeds the configured cap. -/
theorem c5_backoff_monotone_and_capped (a : Nat) :
    backoffDelay a = min (YTDLP_MIN_BACKOFF * 2 ^ (a - 1)) YTDLP_MAX_BACKOFF ∧
    backoffDelay a ≤ backoffDelay (a + 1) ∧ backoffDelay a ≤ YTDLP_MAX_BACKOFF := by
  refine ⟨rfl, ?_, ?_⟩
  · unfold backoffDelay
    apply min_le_min _ le_rfl
    have h2 : (2 : ℚ) ^ (a - 1) ≤ 2 ^ (a + 1 - 1) := by
      apply pow_le_pow_right₀ (by norm_num)
      omega
    unfold YTDLP_MIN_BACKOFF
    nlinarith [h2]
  · exact min_le_right _ _

/-- Subscription row as _check_subscription reads it (scheduler.py): the
enabled flag (the lookup filters enabled = 1), content_types (JSON list),
latest_n_videos, auto_download, and the two fields the run writes back:
last_check (a timestamp, abstracted to Option Nat) and new_videos_count. -/
structure Subscription where
  enabled : Bool
  contentTypes : List VideoType
  latestN : Nat
  autoDownload : Bool
  lastCheck : Option Nat
  newVideosCount : Nat
deriving DecidableEq, Repr

/-- Job types accepted by the unified job queue (downloader.py). -/
inductive JobType where
  | download
  | subscriptionDiscovery
  | videoMetadataExtraction
deriving DecidableEq, Repr

/-- One row inserted into the job queue; the target of a download job is
identified here by the youtube id of the video row it references. -/
structure QueuedJob where
  jobType : JobType
  target : String
  priority : Nat
deriving DecidableEq, Repr

/-- Fetch-limit computation of _check_subscription (scheduler.py lines
144-149): desired_count when the subscription lists at least three content
types, otherwise min(desired_count * 4, 200). -/
def fetchLimit (contentTypes : List VideoType) (desired : Nat) : Nat :=
  if 3 ≤ contentTypes.length then desired else min (desired * 4) 200

/-- Matching loop of _check_subscription (scheduler.py lines 153-182):
for each entry in entries[:fetch_limit], skip entries without an id,
classify, count a filtered video and continue when the type is not wanted,
skip (uncounted) when a videos row with this youtube id already exists,
otherwise append to matched and break once matched reaches desired_count.
Accumulators: the matched list and the videos_filtered counter. The
content_types_found set, which feeds only the event log, is not tracked. -/
def selectMatched (wanted : List VideoType) (videos : List String) (desired : Nat) :
    List Entry → List (String × VideoType) → Nat → List (String × VideoType) × Nat
  | [], matched, filtered => (matched, filtered)
  | e :: rest, matched, filtered =>
    match e.id with
    | none => selectMatched wanted videos desired rest matched filtered
    | some vid =>
      let vt := classify_video_type e
      if wanted.contains vt then
        if videos.contains vid then
          selectMatched wanted videos desired rest matched filtered
        else if desired ≤ (matched ++ [(vid, vt)]).length then
          (matched ++ [(vid, vt)], filtered)
        else
          selectMatched wanted videos desired rest (matched ++ [(vid, vt)]) filtered
      else
        selectMatched wanted videos desired rest matched (filtered + 1)

/-- State threaded through the insertion loop of _check_subscription:
the videos table (youtube ids), the ids inserted by this run (each row is
created with download_status pending), the jobs enqueued, the
videos_queued counter and the per-item error count. -/
structure InsertState where
  videos : List String
  inserted : List String
  queuedJobs : List QueuedJob
  videosQueued : Nat
  errors : Nat
deriving DecidableEq, Repr

/-- Insertion loop of _check_subscription (scheduler.py lines 185-225):
for each matched video (already capped at desired_count) insert a videos
row with download_status pending — the insert raises on a duplicate
youtube id (unique external id, spec section 3), which is caught and
counted as an error; on success, when auto_download is set, queue a
download job at priority 1 via queue_download (a failure there is caught
separately and does not remove the video from new_videos); finally append
to new_videos. -/
def processMatched (autoDownload : Bool) :
    List (String × VideoType) → InsertState → InsertState
  | [], st => st
  | (vid, _vt) :: rest, st =>
    if st.videos.contains vid then
      processMatched autoDownload rest { st with errors := st.errors + 1 }
    else
      let st1 := { st with videos := st.videos ++ [vid],
                           inserted := st.inserted ++ [vid] }
      let st2 :=
        if autoDownload then
          { st1 with queuedJobs := st1.queuedJobs ++ [⟨JobType.download, vid, 1⟩],
                     videosQueued := st1.videosQueued + 1 }
        else st1
      processMatched autoDownload rest st2

/-- Result of one _check_subscription run: the videos table and the
subscription row afterwards, the ids inserted, the jobs enqueued, the
videos_filtered counter, videos_queued, the per-item error count, and the
status written to the scheduler event. -/
structure CheckResult where
  videos : List String
  sub : Subscription
  inserted : List String
  queuedJobs : List QueuedJob
  videosFiltered : Nat
  videosQueued : Nat
  errors : Nat
  eventStatus : String
deriving Repr

/-- Embedding of SubscriptionScheduler._check_subscription (scheduler.py
lines 92-271). Inputs: the subscription row, the current videos table
(youtube ids), the current time, and the result of
downloader.extract_info on the source url (an exception or the extracted
entries list). A disabled/missing subscription returns early with a failed
event; an extraction exception is caught by the outer handler, which
records a failed event and leaves the subscription row untouched;
otherwise the run filters and inserts as in the source and finally writes
last_check = now and new_videos_count = len(new_videos) unconditionally,
then records a success or partial_success event. -/
def checkSubscription (sub : Subscription) (videos : List String) (now : Nat)
    (extractResult : Except String (List Entry)) : CheckResult :=
  if sub.enabled then
    match extractResult with
    | .error _ => ⟨videos, sub, [], [], 0, 0, 0, "failed"⟩
    | .ok entries =>
      let desired := sub.latestN
      let fl := fetchLimit sub.contentTypes desired
      let selected := selectMatched sub.contentTypes videos desired (entries.take fl) [] 0
      let st := processMatched sub.autoDownload (selected.1.take desired)
        ⟨videos, [], [], 0, 0⟩
      let sub2 := { sub with lastCheck := some now,
                             newVideosCount := st.inserted.length }
      ⟨st.videos, sub2, st.inserted, st.queuedJobs, selected.2, st.videosQueued,
        st.errors, if st.errors = 0 then "success" else "partial_success"⟩
  else
    ⟨videos, sub, [], [], 0, 0, 0, "failed"⟩

/-- Firing of a subscription cron trigger: _schedule_subscription
(scheduler.py lines 62-90) registers _check_subscription itself as the
APScheduler job callback (add_job(self._check_subscription, ...)), so a
trigger firing runs one _check_subscription call. -/
def fireSubscriptionTrigger (sub : Subscription) (videos : List String) (now : Nat)
    (extractResult : Except String (List Entry)) : CheckResult :=
  checkSubscription sub videos now extractResult

/-- Short entry (portrait 480x854, 30 s) with the given id, as in the C1
scenario. -/
def shortEntry (i : String) : Entry := ⟨some i, false, "", 480, 854, 30⟩

/-- Regular video entry (landscape 1920x1080, 600 s) with the given id. -/
def videoEntry (i : String) : Entry := ⟨some i, false, "", 1920, 1080, 600⟩

theorem classify_shortEntry (i : String) :
    classify_video_type (shortEntry i) = VideoType.short := by
  norm_num [classify_video_type, shortEntry]
  decide

theorem classify_videoEntry (i : String) :
    classify_video_type (videoEntry i) = VideoType.video := by
  norm_num [classify_video_type, videoEntry]
  decide

/-- Subscription of the C1 scenario: enabled, wants only regular videos,
latest_n_videos = 2, auto_download on, never checked before. -/
def subC1 : Subscription := ⟨true, [VideoType.video], 2, true, none, 0⟩

/-- Six entries of the C1 scenario: positions 0, 2, 4 classify short and
positions 1, 3, 5 classify video; all ids distinct and none known. -/
def entriesC1 : List Entry :=
  [shortEntry "s0", videoEntry "v1", shortEntry "s2",
   videoEntry "v3", shortEntry "s4", videoEntry "v5"]

theorem shortEntry_id (i : String) : (shortEntry i).id = some i := rfl

theorem videoEntry_id (i : String) : (videoEntry i).id = some i := rfl

theorem checkSubscription_c1_eval :
    checkSubscription subC1 [] 7 (Except.ok entriesC1) =
      ⟨["v1", "v3"], ⟨true, [VideoType.video], 2, true, some 7, 2⟩,
        ["v1", "v3"],
        [⟨JobType.download, "v1", 1⟩, ⟨JobType.download, "v3", 1⟩],
        2, 2, 0, "success"⟩ := by
  have h0 := classify_shortEntry "s0"
  have h1 := classify_videoEntry "v1"
  have h2 := classify_shortEntry "s2"
  have h3 := classify_videoEntry "v3"
  have h4 := classify_shortEntry "s4"
  have h5 := classify_videoEntry "v5"
  simp [checkSubscription, subC1, entriesC1, fetchLimit, selectMatched,
    processMatched, h0, h1, h2, h3, h4, h5, shortEntry_id, videoEntry_id]

/-- C1 counterexample: in the claimed scenario (content_types = [video],
latest_n_videos = 2, six unknown entries classifying short at positions
0, 2, 4 and video at 1, 3, 5) the run does insert the entries at positions
1 and 3 and sets new_videos_count = 2, but records videos_filtered = 2,
not 3: the loop breaks as soon as position 3 is matched, so positions 4
and 5 are never examined. -/
theorem c1_counterexample :
    (checkSubscription subC1 [] 7 (Except.ok entriesC1)).inserted = ["v1", "v3"] ∧
    (checkSubscription subC1 [] 7 (Except.ok entriesC1)).sub.newVideosCount = 2 ∧
    (checkSubscription subC1 [] 7 (Except.ok entriesC1)).videosFiltered = 2 ∧
    (checkSubscription subC1 [] 7 (Except.ok entriesC1)).videosFiltered ≠ 3 := by
  rw [checkSubscription_c1_eval]
  exact ⟨rfl, rfl, rfl, by decide⟩

/-- C1 (amended): for every subscription with content_types = [video] and
latest_n_videos = 2 whose discovery extraction returns 6 entries, none
previously known, where positions 0, 2, 4 classify short and 1, 3, 5
classify video, one run inserts exactly the two items at positions 1 and 3
(in status pending), records videos_filtered = 2 (positions 4 and 5 are
never reached because desired_count is met at position 3), and sets
subscription.new_videos_count = 2 and last_check to the run time. -/
theorem c1_amended_discovery_scenario (sub : Subscription) (now : Nat)
    (e0 e1 e2 e3 e4 e5 : Entry) (i0 i1 i2 i3 i4 i5 : String)
    (hen : sub.enabled = true) (hct : sub.contentTypes = [VideoType.video])
    (hn : sub.latestN = 2)
    (hid0 : e0.id = some i0) (hid1 : e1.id = some i1) (hid2 : e2.id = some i2)
    (hid3 : e3.id = some i3) (hid4 : e4.id = some i4) (hid5 : e5.id = some i5)
    (hc0 : classify_video_type e0 = VideoType.short)
    (hc1 : classify_video_type e1 = VideoType.video)
    (hc2 : classify_video_type e2 = VideoType.short)
    (hc3 : classify_video_type e3 = VideoType.video)
    (hc4 : classify_video_type e4 = VideoType.short)
    (hc5 : classify_video_type e5 = VideoType.video)
    (hne : i1 ≠ i3) :
    (checkSubscription sub [] now (Except.ok [e0, e1, e2, e3, e4, e5])).inserted
        = [i1, i3] ∧
    (checkSubscription sub [] now (Except.ok [e0, e1, e2, e3, e4, e5])).videosFiltered
        = 2 ∧
    (checkSubscription sub [] now (Except.ok [e0, e1, e2, e3, e4, e5])).sub.newVideosCount
        = 2 ∧
    (checkSubscription sub [] now (Except.ok [e0, e1, e2, e3, e4, e5])).sub.lastCheck
        = some now := by
  cases had : sub.autoDownload <;>
    simp [checkSubscription, hen, hct, hn, had, fetchLimit, selectMatched,
      processMatched, hid0, hid1, hid2, hid3, hid4, hid5,
      hc0, hc1, hc2, hc3, hc4, hc5, hne, Ne.symm hne]

/-- C1 witness: the amended scenario instantiated with concrete entries. -/
theorem c1_amended_witness :
    (checkSubscription subC1 [] 7 (Except.ok [shortEntry "s0", videoEntry "v1",
        shortEntry "s2", videoEntry "v3", shortEntry "s4", videoEntry "v5"])).inserted
        = ["v1", "v3"] ∧
    (checkSubscription subC1 [] 7 (Except.ok [shortEntry "s0", videoEntry "v1",
        shortEntry "s2", videoEntry "v3", shortEntry "s4", videoEntry "v5"])).videosFiltered
        = 2 ∧
    (checkSubscription subC1 [] 7 (Except.ok [shortEntry "s0", videoEntry "v1",
        shortEntry "s2", videoEntry "v3", shortEntry "s4", videoEntry "v5"])).sub.newVideosCount
        = 2 ∧
    (checkSubscription subC1 [] 7 (Except.ok [shortEntry "s0", videoEntry "v1",
        shortEntry "s2", videoEntry "v3", shortEntry "s4", videoEntry "v5"])).sub.lastCheck
        = some 7 :=
  c1_amended_discovery_scenario subC1 7 _ _ _ _ _ _ "s0" "v1" "s2" "v3" "s4" "v5"
    rfl rfl rfl rfl rfl rfl rfl rfl rfl
    (classify_shortEntry "s0") (classify_videoEntry "v1") (classify_shortEntry "s2")
    (classify_videoEntry "v3") (classify_shortEntry "s4") (classify_videoEntry "v5")
    (by decide)

/-- C8 counterexample: a cron firing in the C1 scenario enqueues no
subscription_discovery job at all and instead performs the discovery work
inline — it inserts the two matched videos itself (the only jobs it
enqueues are their download jobs). -/
theorem c8_counterexample :
    ((fireSubscriptionTrigger subC1 [] 7 (Except.ok entriesC1)).queuedJobs.filter
        (fun j => j.jobType == JobType.subscriptionDiscovery)) = [] ∧
    (fireSubscriptionTrigger subC1 [] 7 (Except.ok entriesC1)).inserted = ["v1", "v3"] ∧
    (fireSubscriptionTrigger subC1 [] 7 (Except.ok entriesC1)).queuedJobs =
      [⟨JobType.download, "v1", 1⟩, ⟨JobType.download, "v3", 1⟩] := by
  unfold fireSubscriptionTrigger
  rw [checkSubscription_c1_eval]
  exact ⟨rfl, rfl, rfl⟩

theorem processMatched_jobs_all (ad : Bool) (l : List (String × VideoType))
    (st : InsertState)
    (h : st.queuedJobs.all
        (fun j => j.jobType == JobType.download && j.priority == 1) = true) :
    ((processMatched ad l st).queuedJobs.all
        (fun j => j.jobType == JobType.download && j.priority == 1)) = true := by
  induction l generalizing st with
  | nil => simpa [processMatched] using h
  | cons p rest ih =>
    obtain ⟨vid, vt⟩ := p
    simp only [processMatched]
    split_ifs with h1 h2
    · exact ih _ (by simpa using h)
    · exact ih _ (by simp [List.all_append, h])
    · exact ih _ (by simpa using h)

/-- C8 (amended): a cron trigger firing runs _check_subscription inline:
the extraction, classification, filtering and content-item insertion
happen in the firing itself, and the only jobs it ever enqueues are
download jobs at priority 1 for the matched videos — in particular it
never enqueues a subscription_discovery job. -/
theorem c8_amended_firing_runs_inline (sub : Subscription) (videos : List String)
    (now : Nat) (res : Except String (List Entry)) :
    ((fireSubscriptionTrigger sub videos now res).queuedJobs.all
        (fun j => j.jobType == JobType.download && j.priority == 1)) = true := by
  unfold fireSubscriptionTrigger checkSubscription
  split
  · cases res with
    | error e => rfl
    | ok entries => exact processMatched_jobs_all _ _ _ (by rfl)
  · rfl

/-- Job status values used by the unified queue (job_queue rows):
downloads use queued/downloading, discovery and metadata jobs use
queued/processing, and both end in completed or failed. -/
inductive JobStatus where
  | queued
  | downloading
  | processing
  | completed
  | failed
deriving DecidableEq, Repr

/-- Row of the job_queue table as the downloader writes it: id, job_type,
the per-type target (video_id for downloads, subscription_id for
discovery), priority, status, and error_message. -/
structure JobRow where
  id : Nat
  jobType : JobType
  videoId : Option Nat
  subscriptionId : Option Nat
  priority : Nat
  status : JobStatus
  errorMessage : Option String
deriving DecidableEq, Repr

/-- Job queue table plus the next row id the database would assign. -/
structure JobQueueState where
  jobs : List JobRow
  nextId : Nat
deriving DecidableEq, Repr

/-- Embedding of Downloader.queue_download (downloader.py lines 256-271):
unconditionally insert a job_queue row with job_type download, the given
video_id, priority and quality, status queued and progress 0; no
existence check of any kind is performed here. Returns the new queue id. -/
def queue_download (st : JobQueueState) (videoId priority : Nat) :
    JobQueueState × Nat :=
  (⟨st.jobs ++ [⟨st.nextId, JobType.download, some videoId, none, priority,
      JobStatus.queued, none⟩], st.nextId + 1⟩, st.nextId)

/-- Modelled from the spec: the existence check of queue_video_download
reads a download_queue relation, whose definition lives in schema.sql,
which is not part of the sources here; following the data model of spec
section 3 (a single durable Job queue) it is modelled as the download
jobs of the unified job queue. True when some download job for this
video_id is queued or downloading. -/
def hasActiveDownloadFor (st : JobQueueState) (videoId : Nat) : Bool :=
  st.jobs.any (fun j => j.videoId == some videoId &&
    (j.status == JobStatus.queued || j.status == JobStatus.downloading))

/-- Embedding of the queue_video_download endpoint
(app/api/endpoints/videos.py lines 325-372): 404 when the videos row does
not exist; 400 "Video already in download queue" when the existence check
finds a queued/downloading entry for this video; otherwise insert via
queue_download. -/
def queue_video_download (st : JobQueueState) (videos : List Nat)
    (videoId priority : Nat) : Except String (JobQueueState × Nat) :=
  if videos.contains videoId then
    if hasActiveDownloadFor st videoId then
      Except.error "Video already in download queue"
    else
      Except.ok (queue_download st videoId priority)
  else
    Except.error "Video not found"

/-- Embedding of the download branch of the bulk_operation endpoint
(app/api/endpoints/videos.py lines 393-396): for each requested video id
it calls downloader.queue_download directly, with no duplicate-job
existence check. -/
def bulkDownload (st : JobQueueState) (ids : List Nat) (priority : Nat) :
    JobQueueState :=
  ids.foldl (fun s v => (queue_download s v priority).1) st

/-- Counts the download jobs for a video that are queued or downloading. -/
def activeDownloadCount (st : JobQueueState) (videoId : Nat) : Nat :=
  (st.jobs.filter (fun j => j.videoId == some videoId &&
    (j.status == JobStatus.queued || j.status == JobStatus.downloading))).length

/-- Queue state with one already-queued download job for video 7. -/
def stOneQueued : JobQueueState :=
  ⟨[⟨1, JobType.download, some 7, none, 1, JobStatus.queued, none⟩], 2⟩

/-- C2 counterexample: with a download job for video 7 already queued, a
bulk download request for video 7 is not rejected — queue_download runs
without any pre-insert existence check and inserts a second job row, after
which two jobs for the same content item are simultaneously queued. -/
theorem c2_counterexample :
    activeDownloadCount stOneQueued 7 = 1 ∧
    activeDownloadCount (bulkDownload stOneQueued [7] 0) 7 = 2 ∧
    (bulkDownload stOneQueued [7] 0).jobs.length = 2 := by
  refine ⟨rfl, rfl, rfl⟩

/-- C2 (amended): only the single-video download endpoint performs the
pre-insert existence check: a request through queue_video_download for an
item that already has a queued/downloading job is rejected with the
caller-visible duplicate error and inserts nothing, but callers of
queue_download itself (the bulk download operation, video creation,
discovery auto-queueing) insert without any check, so the at-most-one
invariant is not globally enforced. -/
theorem c2_amended_endpoint_check_only (st : JobQueueState) (videos : List Nat)
    (videoId priority : Nat)
    (hv : videos.contains videoId = true)
    (hactive : hasActiveDownloadFor st videoId = true) :
    queue_video_download st videos videoId priority =
      Except.error "Video already in download queue" := by
  unfold queue_video_download
  rw [hv, if_pos rfl, if_pos hactive]

/-- C2 witness: the endpoint rejection at the concrete one-job state. -/
theorem c2_amended_witness :
    ([7] : List Nat).contains 7 = true ∧
    hasActiveDownloadFor stOneQueued 7 = true ∧
    queue_video_download stOneQueued [7] 7 5 =
      Except.error "Video already in download queue" :=
  ⟨rfl, rfl, c2_amended_endpoint_check_only stOneQueued [7] 7 5 rfl rfl⟩

/-- Global names defined at module level in app/core/downloader.py: its
imports (lines 4-15) and the two classes it defines. The module defines no
name logger (unlike scheduler.py, metadata.py, recovery.py and
ytdlp_service.py, which each set logger = logging.getLogger(__name__)),
so evaluating the bare name logger inside this module raises NameError. -/
def downloaderModuleGlobals : List String :=
  ["asyncio", "json", "Path", "Optional", "Dict", "Any", "Callable", "yt_dlp",
   "datetime", "settings", "Database", "MetadataManager", "QualityService",
   "get_ytdlp_service", "DownloadProgress", "Downloader"]

/-- Updates the job_queue rows selected by id = queueId, modelling
db.update("job_queue", data, "id = ?", (queue_id,)). -/
def setJobFields (jobs : List JobRow) (queueId : Nat) (f : JobRow → JobRow) :
    List JobRow :=
  jobs.map (fun j => if j.id == queueId then f j else j)

/-- Embedding of Downloader._process_job (downloader.py lines 305-342),
with the per-type processor abstracted as the parameter run (returning the
job table it produced, or the message of the exception it raised). The
source looks the job up by id with status in (queued, downloading,
processing) and returns silently when absent; on an exception from the
processor the except branch first evaluates logger.error(...): since the
module defines no logger, Python raises NameError there, so the
db.update to status failed / error_message on lines 329-338 is never
executed and the job table is returned unchanged, with the NameError
escaping. The second component is the exception escaping _process_job. -/
def process_job (jobs : List JobRow) (queueId : Nat)
    (run : JobRow → Except String (List JobRow)) :
    List JobRow × Option String :=
  match jobs.find? (fun j => j.id == queueId &&
      (j.status == JobStatus.queued || j.status == JobStatus.downloading ||
       j.status == JobStatus.processing)) with
  | none => (jobs, none)
  | some job =>
    match run job with
    | .ok jobs2 => (jobs2, none)
    | .error e =>
      if downloaderModuleGlobals.contains "logger" then
        (setJobFields jobs queueId
          (fun j => { j with status := JobStatus.failed, errorMessage := some e }),
         none)
      else
        (jobs, some "NameError: name logger is not defined")

/-- C3: whenever a queued job's execution raises an error, _process_job
does NOT update the job row to failed with the error text: its exception
handler itself raises NameError (the module-level name logger is
undefined) before reaching the update, so the job table is returned
unchanged — in particular the job keeps its prior status and a null
error_message — and the NameError escapes into the task. This evaluates
the code at the failing input of the code_bug finding for C3. -/
theorem c3_failed_job_never_marked_failed (jobs : List JobRow) (queueId : Nat)
    (run : JobRow → Except String (List JobRow)) (e : String) (job : JobRow)
    (hfind : jobs.find? (fun j => j.id == queueId &&
      (j.status == JobStatus.queued || j.status == JobStatus.downloading ||
       j.status == JobStatus.processing)) = some job)
    (hrun : run job = Except.error e) :
    process_job jobs queueId run =
      (jobs, some "NameError: name logger is not defined") := by
  unfold process_job
  rw [hfind]
  simp only []
  rw [hrun]
  simp [downloaderModuleGlobals]

/-- C3 witness: a queued download job (id 5) whose processing raises
ValueError because video 999 does not exist; the run leaves the row queued
with no error_message and the NameError escapes. -/
theorem c3_witness :
    ([⟨5, JobType.download, some 999, none, 0, JobStatus.queued, none⟩]
        : List JobRow).find? (fun j => j.id == 5 &&
      (j.status == JobStatus.queued || j.status == JobStatus.downloading ||
       j.status == JobStatus.processing)) =
      some ⟨5, JobType.download, some 999, none, 0, JobStatus.queued, none⟩ ∧
    process_job [⟨5, JobType.download, some 999, none, 0, JobStatus.queued, none⟩] 5
      (fun _ => Except.error "Video 999 not found") =
      ([⟨5, JobType.download, some 999, none, 0, JobStatus.queued, none⟩],
       some "NameError: name logger is not defined") :=
  ⟨rfl, c3_failed_job_never_marked_failed _ 5 _ "Video 999 not found" _ rfl rfl⟩

/-- Matching loop of _process_subscription_discovery_job (downloader.py
lines 455-490), applied by the caller to entries[:desired_count * 2]:
skip null entries and entries without an id; classify; continue when the
type is not wanted (nothing is counted here — this loop keeps no filtered
counter); append to matched when no videos row with this youtube id
exists; after each processed entry break once matched reaches
desired_count. The per-entry progress writes do not affect the result. -/
def discoverySelect (wanted : List VideoType) (videos : List String) (desired : Nat) :
    List Entry → List (String × VideoType) → List (String × VideoType)
  | [], matched => matched
  | e :: rest, matched =>
    match e.id with
    | none => discoverySelect wanted videos desired rest matched
    | some vid =>
      let vt := classify_video_type e
      if wanted.contains vt then
        let matched2 := if videos.contains vid then matched else matched ++ [(vid, vt)]
        if desired ≤ matched2.length then matched2
        else discoverySelect wanted videos desired rest matched2
      else discoverySelect wanted videos desired rest matched

/-- Insertion loop of _process_subscription_discovery_job (downloader.py
lines 498-549): like the scheduler's loop, but download jobs are queued at
priority 1 with the 720p default quality; a duplicate youtube id makes the
insert raise, which is caught and recorded in the errors list. -/
def discoveryInsert (autoDownload : Bool) :
    List (String × VideoType) → InsertState → InsertState
  | [], st => st
  | (vid, _vt) :: rest, st =>
    if st.videos.contains vid then
      discoveryInsert autoDownload rest { st with errors := st.errors + 1 }
    else
      let st1 := { st with videos := st.videos ++ [vid],
                           inserted := st.inserted ++ [vid] }
      let st2 :=
        if autoDownload then
          { st1 with queuedJobs := st1.queuedJobs ++ [⟨JobType.download, vid, 1⟩],
                     videosQueued := st1.videosQueued + 1 }
        else st1
      discoveryInsert autoDownload rest st2

/-- Modelled from the spec: the fetch limit spec section 4.3 step 3 and
claim C7 assign to every discovery run — latest_n_videos when the
subscription wants all three content types, min(latest_n_videos * 4, 200)
otherwise. -/
def claimedFetchLimit (contentTypes : List VideoType) (desired : Nat) : Nat :=
  if contentTypes.contains VideoType.video ∧ contentTypes.contains VideoType.short ∧
      contentTypes.contains VideoType.live then desired
  else min (desired * 4) 200

/-- Outcome of one _process_subscription_discovery_job run: the job table,
videos table and subscription row afterwards, whether the extraction call
was ever made, and the exception escaping into _process_job (if any). -/
structure DiscoveryJobResult where
  jobs : List JobRow
  videos : List String
  sub : Subscription
  extractAttempted : Bool
  raised : Option String
deriving Repr

/-- Embedding of Downloader._process_subscription_discovery_job
(downloader.py lines 375-585). The source first sets the job row to
processing (lines 381-389), looks the subscription up (raising ValueError
when absent), and then executes logger.info(...) on line 403: the module
defines no name logger, so that statement raises NameError before the
extraction call — the branch guarded here by downloaderModuleGlobals,
which never contains "logger". The remaining branches translate the rest
of the source (normalization of the extraction result to an entries list
per lines 417-421 is taken as given in the extractResult parameter; the
later logger calls on lines 424, 492 and 585 would equally raise and are
modelled as inert, being unreachable): empty entries complete the job
early; otherwise select over entries[:desired_count * 2], insert, update
subscription.last_check and new_videos_count, and complete the job. -/
def process_subscription_discovery_job (jobs : List JobRow) (videos : List String)
    (queueId : Nat) (sub : Subscription) (subFound : Bool) (now : Nat)
    (extractResult : Except String (List Entry)) : DiscoveryJobResult :=
  let jobs1 := setJobFields jobs queueId
    (fun j => { j with status := JobStatus.processing })
  if subFound then
    if downloaderModuleGlobals.contains "logger" then
      match extractResult with
      | .error e =>
        ⟨jobs1, videos, sub, true, some ("Failed to extract info: " ++ e)⟩
      | .ok entries =>
        if entries.isEmpty then
          ⟨setJobFields jobs1 queueId
            (fun j => { j with status := JobStatus.completed }), videos, sub,
            true, none⟩
        else
          let desired := sub.latestN
          let matched := discoverySelect sub.contentTypes videos desired
            (entries.take (desired * 2)) []
          let st := discoveryInsert sub.autoDownload matched ⟨videos, [], [], 0, 0⟩
          let sub2 := { sub with lastCheck := some now,
                                 newVideosCount := st.inserted.length }
          ⟨setJobFields jobs1 queueId
            (fun j => { j with status := JobStatus.completed }), st.videos, sub2,
            true, none⟩
    else
      ⟨jobs1, videos, sub, false, some "NameError: name logger is not defined"⟩
  else
    ⟨jobs1, videos, sub, false, some "ValueError: Subscription not found"⟩

/-- Queue discovery job used as the C9 failing input: job id 3, queued,
for subscription 1. -/
def discoveryJobRow : JobRow :=
  ⟨3, JobType.subscriptionDiscovery, none, some 1, 3, JobStatus.queued, none⟩

/-- C9: evaluation of the queue discovery path at the failing input of the
code_bug finding. A discovery job for an existing subscription aborts with
NameError (the undefined module name logger, downloader.py line 403)
before the extraction call is ever made: extraction can neither fail nor
succeed, the subscription row keeps its prior last_check and
new_videos_count — so no queue discovery run ever updates them as the
claim requires for successful extractions — and the job row is left in
processing (the escaping exception then hits the broken handler of
_process_job, theorem about C3, so it is never marked failed either). -/
theorem c9_discovery_job_aborts_before_extraction :
    (process_subscription_discovery_job [discoveryJobRow] [] 3 subC1 true 7
        (Except.ok entriesC1)).extractAttempted = false ∧
    (process_subscription_discovery_job [discoveryJobRow] [] 3 subC1 true 7
        (Except.ok entriesC1)).sub = subC1 ∧
    (process_subscription_discovery_job [discoveryJobRow] [] 3 subC1 true 7
        (Except.ok entriesC1)).raised = some "NameError: name logger is not defined" ∧
    (process_subscription_discovery_job [discoveryJobRow] [] 3 subC1 true 7
        (Except.ok entriesC1)).jobs =
      [⟨3, JobType.subscriptionDiscovery, none, some 1, 3, JobStatus.processing, none⟩] := by
  refine ⟨rfl, rfl, rfl, rfl⟩

/-- C7 counterexample: with a subscription wanting all three content types
and latest_n_videos = 1, the claimed fetch limit is 1, but the queue
discovery path slices entries[:desired_count * 2] and so considers 2
entries; behaviourally, on entries = [id-less entry, video entry] the
source loop matches the video at position 1, which lies beyond the
claimed limit (the claimed one-entry slice matches nothing). -/
theorem c7_counterexample :
    claimedFetchLimit [VideoType.video, VideoType.short, VideoType.live] 1 = 1 ∧
    (([Entry.mk none false "" 0 0 0, videoEntry "v"]).take (1 * 2)).length = 2 ∧
    discoverySelect [VideoType.video, VideoType.short, VideoType.live] [] 1
      (([Entry.mk none false "" 0 0 0, videoEntry "v"]).take (1 * 2)) []
      = [("v", VideoType.video)] ∧
    discoverySelect [VideoType.video, VideoType.short, VideoType.live] [] 1
      (([Entry.mk none false "" 0 0 0, videoEntry "v"]).take
        (claimedFetchLimit [VideoType.video, VideoType.short, VideoType.live] 1)) []
      = [] := by
  have hv := classify_videoEntry "v"
  refine ⟨by decide, by decide, ?_, ?_⟩ <;>
    simp [discoverySelect, claimedFetchLimit, hv, videoEntry_id]

theorem mem_of_three_le_length (ct : List VideoType) (hnd : ct.Nodup)
    (h3 : 3 ≤ ct.length) (x : VideoType) : x ∈ ct := by
  by_contra hx
  have hsub : ct.toFinset ⊆
      ({VideoType.video, VideoType.short, VideoType.live} : Finset VideoType).erase x := by
    intro y hy
    rw [List.mem_toFinset] at hy
    refine Finset.mem_erase.mpr ⟨fun he => hx (he ▸ hy), by cases y <;> simp⟩
  have hcard := Finset.card_le_card hsub
  have h1 : ct.toFinset.card = ct.length := List.toFinset_card_of_nodup hnd
  have h2 : (({VideoType.video, VideoType.short, VideoType.live} :
      Finset VideoType).erase x).card ≤ 2 := by cases x <;> decide
  omega

theorem three_le_length_of_all_mem (ct : List VideoType)
    (hv : VideoType.video ∈ ct) (hs : VideoType.short ∈ ct)
    (hl : VideoType.live ∈ ct) : 3 ≤ ct.length := by
  have hsub : ({VideoType.video, VideoType.short, VideoType.live} :
      Finset VideoType) ⊆ ct.toFinset := by
    intro y hy
    simp only [Finset.mem_insert, Finset.mem_singleton] at hy
    rcases hy with rfl | rfl | rfl <;> rw [List.mem_toFinset] <;> assumption
  have h1 := Finset.card_le_card hsub
  have h2 : (({VideoType.video, VideoType.short, VideoType.live} :
      Finset VideoType)).card = 3 := by decide
  have h3 := List.toFinset_card_le ct
  omega

theorem fetchLimit_eq_claimed (ct : List VideoType) (d : Nat) (hnd : ct.Nodup) :
    fetchLimit ct d = claimedFetchLimit ct d := by
  unfold fetchLimit claimedFetchLimit
  by_cases h3 : 3 ≤ ct.length
  · rw [if_pos h3, if_pos]
    refine ⟨?_, ?_, ?_⟩ <;> simp <;> exact mem_of_three_le_length ct hnd h3 _
  · rw [if_neg h3, if_neg]
    intro hall
    obtain ⟨hv, hs, hl⟩ := hall
    simp at hv hs hl
    exact h3 (three_le_length_of_all_mem ct hv hs hl)

/-- C7 (amended): the scheduler-path check uses fetch_limit =
latest_n_videos when the subscription wants all three content types (the
source tests len(content_types) >= 3, equivalent for duplicate-free
content_types lists) and min(latest_n_videos * 4, 200) otherwise; the
queue-processed discovery job instead considers entries up to
latest_n_videos * 2 — with no 200 cap and independent of content types. -/
theorem c7_amended_fetch_limits (ct : List VideoType) (d : Nat) (es : List Entry)
    (hnd : ct.Nodup) :
    fetchLimit ct d = claimedFetchLimit ct d ∧
    (es.take (d * 2)).length = min (d * 2) es.length :=
  ⟨fetchLimit_eq_claimed ct d hnd, List.length_take _ _⟩

/-- C7 witness: the amended statement at a concrete duplicate-free
subscription wanting all three types, latest_n_videos = 5, and the C1
entry list. -/
theorem c7_amended_witness :
    ([VideoType.video, VideoType.short, VideoType.live] : List VideoType).Nodup ∧
    (fetchLimit [VideoType.video, VideoType.short, VideoType.live] 5 =
      claimedFetchLimit [VideoType.video, VideoType.short, VideoType.live] 5 ∧
    (entriesC1.take (5 * 2)).length = min (5 * 2) entriesC1.length) :=
  ⟨by decide, c7_amended_fetch_limits _ 5 entriesC1 (by decide)⟩

/-- Discovered channel directory as _discover_storage_structure returns it
(recovery.py lines 88-114): the resolved channel youtube id and the
youtube ids of the video directories resolved inside it. Non-key fields
(names, descriptions, file paths …) are carried by the source but play no
role in the upsert decision or the counters, and directories that resolve
to no id are dropped during discovery. -/
structure DChannel where
  youtubeId : String
  videos : List String
deriving DecidableEq, Repr

/-- Persistent store as recovery reads it: the youtube ids present in the
channels and videos tables (the upserts decide purely on these keys). -/
structure Store where
  channels : List String
  videos : List String
deriving DecidableEq, Repr

/-- Counters of RecoveryResult (recovery.py lines 19-29) that the claim
reads: channels/videos created and updated. -/
structure RecoveryResult where
  channelsCreated : Nat
  channelsUpdated : Nat
  videosCreated : Nat
  videosUpdated : Nat
deriving DecidableEq, Repr

/-- Embedding of RecoveryManager._process_channel (recovery.py lines
339-374): look the channel up by youtube_id; update the existing row
(same key, refreshed columns) when found, insert otherwise. The Bool is
the _created flag. -/
def process_channel (st : Store) (cid : String) : Store × Bool :=
  if st.channels.contains cid then (st, false)
  else ({ st with channels := st.channels ++ [cid] }, true)

/-- Embedding of RecoveryManager._process_video (recovery.py lines
376-418): upsert by youtube_id; the Bool is the _created flag. -/
def process_video (st : Store) (vid : String) : Store × Bool :=
  if st.videos.contains vid then (st, false)
  else ({ st with videos := st.videos ++ [vid] }, true)

/-- Inner loop of scan_and_recover over one channel's videos (recovery.py
lines 62-73): upsert each video and count created/updated from the
_created flag. Returns (store, videos created, videos updated). -/
def scanVideos : Store → List String → Store × Nat × Nat
  | st, [] => (st, 0, 0)
  | st, v :: rest =>
    let p := process_video st v
    let res := scanVideos p.1 rest
    if p.2 then (res.1, res.2.1 + 1, res.2.2) else (res.1, res.2.1, res.2.2 + 1)

/-- Outer loop of scan_and_recover (recovery.py lines 53-79): upsert each
channel, count it from its _created flag, then process its videos. -/
def scanChannels : Store → List DChannel → Store × RecoveryResult
  | st, [] => (st, ⟨0, 0, 0, 0⟩)
  | st, ch :: rest =>
    let p := process_channel st ch.youtubeId
    let v := scanVideos p.1 ch.videos
    let r := scanChannels v.1 rest
    (r.1, ⟨(if p.2 then r.2.channelsCreated + 1 else r.2.channelsCreated),
           (if p.2 then r.2.channelsUpdated else r.2.channelsUpdated + 1),
           v.2.1 + r.2.videosCreated, v.2.2 + r.2.videosUpdated⟩)

/-- Embedding of RecoveryManager.scan_and_recover (recovery.py lines
39-86) on an archive tree whose discovery (a pure walk of the unchanged
directory tree) yielded the given channels. -/
def scan_and_recover (st : Store) (tree : List DChannel) : Store × RecoveryResult :=
  scanChannels st tree

/-- Total number of video directories in the discovered tree. -/
def totalVideos (tree : List DChannel) : Nat :=
  (tree.map (fun ch => ch.videos.length)).sum

theorem scanVideos_channels (st : Store) (vids : List String) :
    (scanVideos st vids).1.channels = st.channels := by
  induction vids generalizing st with
  | nil => rfl
  | cons v rest ih =>
    simp only [scanVideos, process_video]
    split_ifs <;> simp [ih]

theorem scanVideos_videos_mono (st : Store) (vids : List String) (a : String)
    (h : a ∈ st.videos) : a ∈ (scanVideos st vids).1.videos := by
  induction vids generalizing st with
  | nil => exact h
  | cons v rest ih =>
    simp only [scanVideos, process_video]
    split_ifs with h1 <;> simp only [] <;> apply ih <;> simp [h]

theorem scanVideos_videos_mem (st : Store) (vids : List String) (v : String)
    (h : v ∈ vids) : v ∈ (scanVideos st vids).1.videos := by
  induction vids generalizing st with
  | nil => cases h
  | cons w rest ih =>
    by_cases hc : st.videos.contains w = true
    · simp only [scanVideos, process_video, if_pos hc, Bool.false_eq_true,
        if_false]
      rcases List.mem_cons.mp h with rfl | hm
      · exact scanVideos_videos_mono _ _ _ (by simpa using hc)
      · exact ih _ hm
    · simp only [scanVideos, process_video, if_neg hc, if_true]
      rcases List.mem_cons.mp h with rfl | hm
      · exact scanVideos_videos_mono _ _ _ (by simp)
      · exact ih _ hm

theorem scanVideos_all_present (st : Store) (vids : List String)
    (h : ∀ v ∈ vids, v ∈ st.videos) :
    scanVideos st vids = (st, 0, vids.length) := by
  induction vids generalizing st with
  | nil => rfl
  | cons v rest ih =>
    have hv : st.videos.contains v = true := by
      simpa using h v (by simp)
    simp only [scanVideos, process_video, hv]
    simp [ih st (fun w hw => h w (by simp [hw]))]

theorem process_channel_videos (st : Store) (c : String) :
    (process_channel st c).1.videos = st.videos := by
  unfold process_channel
  split_ifs <;> rfl

theorem scanChannels_channels_mono (st : Store) (tree : List DChannel) (a : String)
    (h : a ∈ st.channels) : a ∈ (scanChannels st tree).1.channels := by
  induction tree generalizing st with
  | nil => exact h
  | cons ch rest ih =>
    by_cases hc : st.channels.contains ch.youtubeId = true
    · simp only [scanChannels, process_channel, if_pos hc]
      exact ih _ (by rw [scanVideos_channels]; exact h)
    · simp only [scanChannels, process_channel, if_neg hc]
      exact ih _ (by rw [scanVideos_channels]; simp [h])

theorem scanChannels_videos_mono (st : Store) (tree : List DChannel) (a : String)
    (h : a ∈ st.videos) : a ∈ (scanChannels st tree).1.videos := by
  induction tree generalizing st with
  | nil => exact h
  | cons ch rest ih =>
    simp only [scanChannels]
    exact ih _ (scanVideos_videos_mono _ _ _ (by rw [process_channel_videos]; exact h))

theorem scanChannels_mem_channels (st : Store) (tree : List DChannel)
    (ch : DChannel) (h : ch ∈ tree) :
    ch.youtubeId ∈ (scanChannels st tree).1.channels := by
  induction tree generalizing st with
  | nil => cases h
  | cons ch2 rest ih =>
    rcases List.mem_cons.mp h with rfl | hm
    · by_cases hc : st.channels.contains ch.youtubeId = true
      · simp only [scanChannels, process_channel, if_pos hc]
        apply scanChannels_channels_mono
        rw [scanVideos_channels]
        simpa using hc
      · simp only [scanChannels, process_channel, if_neg hc]
        apply scanChannels_channels_mono
        rw [scanVideos_channels]
        simp
    · simp only [scanChannels]
      exact ih _ hm

theorem scanChannels_mem_videos (st : Store) (tree : List DChannel)
    (ch : DChannel) (v : String) (hch : ch ∈ tree) (hv : v ∈ ch.videos) :
    v ∈ (scanChannels st tree).1.videos := by
  induction tree generalizing st with
  | nil => cases hch
  | cons ch2 rest ih =>
    rcases List.mem_cons.mp hch with rfl | hm
    · simp only [scanChannels]
      exact scanChannels_videos_mono _ _ _ (scanVideos_videos_mem _ _ _ hv)
    · simp only [scanChannels]
      exact ih _ hm

theorem scanChannels_all_present (st : Store) (tree : List DChannel)
    (h1 : ∀ ch ∈ tree, ch.youtubeId ∈ st.channels)
    (h2 : ∀ ch ∈ tree, ∀ v ∈ ch.videos, v ∈ st.videos) :
    scanChannels st tree = (st, ⟨0, tree.length, 0, totalVideos tree⟩) := by
  induction tree generalizing st with
  | nil => rfl
  | cons ch rest ih =>
    have hc : st.channels.contains ch.youtubeId = true := by
      simpa using h1 ch (by simp)
    have hvids := scanVideos_all_present st ch.videos
      (fun v hv => h2 ch (by simp) v hv)
    simp only [scanChannels, process_channel, if_pos hc, hvids,
      ih st (fun c hcm => h1 c (by simp [hcm]))
            (fun c hcm v hv => h2 c (by simp [hcm]) v hv)]
    simp [totalVideos]

/-- Archive tree of the C10 counterexample: one channel directory holding
one video directory. -/
def treeC10 : List DChannel := [⟨"UCabc", ["vidA"]⟩]

/-- C10 counterexample: running the recovery scan a second time over the
unchanged one-channel/one-video tree, against the store populated by the
first run, reports zero created but one channel updated and one video
updated — not zero updated as the claim states (the upsert takes the
update branch for every discovered item and counts it). -/
theorem c10_counterexample :
    (scan_and_recover (scan_and_recover ⟨[], []⟩ treeC10).1 treeC10).2 =
      ⟨0, 1, 0, 1⟩ ∧
    (scan_and_recover (scan_and_recover ⟨[], []⟩ treeC10).1 treeC10).2.channelsUpdated
      ≠ 0 := by
  exact ⟨rfl, by decide⟩

/-- C10 (amended): a second recovery scan over an unchanged archive tree
with the store already populated by the first run creates nothing, but
counts every discovered channel and video as updated: it reports zero
channels created, zero videos created, channels_updated equal to the
number of discovered channels and videos_updated equal to the number of
discovered videos (the store contents themselves are only refreshed). -/
theorem c10_amended_second_run (store : Store) (tree : List DChannel) :
    (scan_and_recover (scan_and_recover store tree).1 tree).2 =
      ⟨0, tree.length, 0, totalVideos tree⟩ := by
  unfold scan_and_recover
  rw [scanChannels_all_present (scanChannels store tree).1 tree
    (fun ch hch => scanChannels_mem_channels _ _ _ hch)
    (fun ch hch v hv => scanChannels_mem_videos _ _ _ _ hch hv)]
